import Mathlib

/-!
# Verification of the student-image-finder backend core

Shallow embedding of `backend/main.py`: the Field Normalizer
(`extract_file_id`, `build_image_url`), the Dataset Cache refresh loop
(`refresh_data_cache`, `on_startup`), the Record Matcher (`get_student`),
and the Asset Proxy Cache (`image_proxy`, `compress_image`).

Python strings are modelled as Lean `String` (with `List Char` views);
external effects (HTTP fetches, the PIL image transform, the clock) are
passed in as explicit arguments; the mutable module-level caches
(`DATA_CACHE`, `IMAGE_CACHE`) are threaded as explicit state.
-/

namespace StudentImageFinder

/-! ## Character and list utilities (models of Python string primitives) -/

/-- The characters stripped by Python `str.strip()` (ASCII whitespace). -/
def isPySpace (c : Char) : Bool :=
  c = ' ' || c = '\t' || c = '\n' || c = '\r' || c = '\x0b' || c = '\x0c'

/-- Python `str.strip()`: drop leading and trailing whitespace. -/
def pyStrip (l : List Char) : List Char :=
  ((l.dropWhile isPySpace).reverse.dropWhile isPySpace).reverse

/-- Python `str.replace(" ", "")`: remove every space character. -/
def removeSpaces (l : List Char) : List Char :=
  l.filter (fun c => !(c = ' '))

/-- ASCII lowercasing, the model of `re.IGNORECASE` comparison. -/
def lowerL (l : List Char) : List Char :=
  l.map Char.toLower

/-- `startsWith pat l` holds when `pat` is a prefix of `l`. -/
def startsWith : List Char → List Char → Bool
  | [], _ => true
  | _ :: _, [] => false
  | p :: ps, c :: cs => p = c && startsWith ps cs

/-- Substring occurrence: `needle` occurs somewhere inside `hay`
(the model of `pandas.Series.str.contains` with an escaped literal). -/
def containsSub (needle : List Char) : List Char → Bool
  | [] => startsWith needle []
  | c :: cs => startsWith needle (c :: cs) || containsSub needle cs

/-! ## Field Normalizer: `extract_file_id` / `build_image_url` -/

/-- A character matched by the regex class `[a-zA-Z0-9_-]`. -/
def isTokenChar (c : Char) : Bool :=
  c.isAlpha || c.isDigit || c = '_' || c = '-'

/-- Greedy capture `([a-zA-Z0-9_-]+)`: the maximal leading run of token
characters. -/
def takeTokenRun : List Char → List Char
  | [] => []
  | c :: cs => if isTokenChar c then c :: takeTokenRun cs else []

/-- `re.search(pat ++ "([a-zA-Z0-9_-]+)", s)`: at the earliest position
where the literal `pat` is followed by at least one token character,
return the maximal token run after `pat`. -/
def searchTokenAfter (pat : List Char) : List Char → Option (List Char)
  | [] => none
  | c :: cs =>
    if startsWith pat (c :: cs) then
      match (c :: cs).drop pat.length with
      | [] => searchTokenAfter pat cs
      | r :: rest => if isTokenChar r then some (r :: takeTokenRun rest)
                     else searchTokenAfter pat cs
    else searchTokenAfter pat cs

/-- Decidable test that `searchTokenAfter` succeeds somewhere. -/
def hasTokenAfter (pat : List Char) : List Char → Bool
  | [] => false
  | c :: cs =>
    (startsWith pat (c :: cs) &&
      (match (c :: cs).drop pat.length with
       | [] => false
       | r :: _ => isTokenChar r)) || hasTokenAfter pat cs

/-- `extract_file_id(url)` from `main.py`. `none` as input models a
non-string (`None`) argument; an empty string is falsy in Python, so it
also yields `none`. Tries `/d/([a-zA-Z0-9_-]+)` first and
`id=([a-zA-Z0-9_-]+)` second. -/
def extract_file_id (url : Option String) : Option String :=
  match url with
  | none => none
  | some u =>
    if u.data.isEmpty then none
    else
      match searchTokenAfter ['/', 'd', '/'] u.data with
      | some tok => some ⟨tok⟩
      | none =>
        match searchTokenAfter ['i', 'd', '='] u.data with
        | some tok => some ⟨tok⟩
        | none => none

/-- The proxy base used by `build_image_url`. -/
def PROXY_BASE : String := "https://student-image-finder.onrender.com/image-proxy/"

/-- `build_image_url(url)` from `main.py`: proxy URL when a file id was
extracted and is truthy, `None` otherwise. -/
def build_image_url (url : Option String) : Option String :=
  match extract_file_id url with
  | some fid => if fid.data.isEmpty then none else some (PROXY_BASE ++ fid)
  | none => none

/-- The Reference Resolver step of `load_data`: each configured
image-bearing column is rewritten cell-wise by
`df[field].apply(build_image_url)`. -/
def resolveColumn (col : List String) : List (Option String) :=
  col.map (fun v => build_image_url (some v))

/-! ## Data model: DataFrame snapshots and the `DATA_CACHE` state -/

/-- The in-memory snapshot produced by `load_data`: trimmed column names
and string-valued rows (one cell list per row, positionally aligned with
`columns`). -/
structure DataFrame where
  columns : List String
  rows : List (List String)
deriving DecidableEq, Repr

/-- The module-level `DATA_CACHE = {"df": None, "last_updated": None}`. -/
structure CacheState where
  df : Option DataFrame
  last_updated : Option String
deriving DecidableEq, Repr

/-! ## Dataset Cache refresh (`refresh_data_cache`, `on_startup`)

`load_data`'s network fetch and CSV parse are modelled by an explicit
outcome argument: `Except.ok (df, ts)` is a successful load (with the
`time.strftime` value `ts` taken at publication), `Except.error e` is a
raised exception. -/

/-- One iteration of the `while True` body of `refresh_data_cache`:
on success both `DATA_CACHE` slots are replaced; on failure the state is
untouched and the error is printed. The returned string is the line
printed by that iteration. -/
def refreshTick (st : CacheState) (r : Except String (DataFrame × String)) :
    CacheState × String :=
  match r with
  | .ok (df, ts) => (⟨some df, some ts⟩, "Data cache refreshed at " ++ ts)
  | .error e => (st, "Error refreshing cache: " ++ e)

/-- The `refresh_data_cache` loop run over a finite prefix of tick
outcomes, collecting the log lines. -/
def refresh_data_cache (st : CacheState) :
    List (Except String (DataFrame × String)) → CacheState × List String
  | [] => (st, [])
  | r :: rs =>
    let t := refreshTick st r
    let rec_ := refresh_data_cache t.1 rs
    (rec_.1, t.2 :: rec_.2)

/-- `on_startup`: the initial `load_data` attempt; on failure the cache
stays empty (`None`/`None`) and the process continues. -/
def on_startup (initFetch : Except String (DataFrame × String)) : CacheState :=
  match initFetch with
  | .ok (df, ts) => ⟨some df, some ts⟩
  | .error _ => ⟨none, none⟩

/-! ## Record Matcher (`get_student`) -/

/-- The cell-wise normalization written back into the `Scholar ID`
column: `astype(str).str.strip().str.replace(" ", "", regex=False)`. -/
def normalizeCell (s : String) : String :=
  ⟨removeSpaces (pyStrip s.data)⟩

/-- `scholar_id.strip().split("/")[0].replace(" ", "")`. -/
def shortForm (s : String) : String :=
  ⟨removeSpaces ((pyStrip s.data).takeWhile (fun c => !(c = '/')))⟩

/-- Rewrite one row's identifier cell (column index `ci`) to its
normalized form, the row-level effect of the line
`df["Scholar ID"] = df["Scholar ID"]...`. -/
def normRow (ci : Nat) (r : List String) : List String :=
  r.set ci (normalizeCell (r.getD ci ""))

/-- The boolean mask `df["Scholar ID"].str.contains(re.escape(short_id),
case=False, na=False)` applied to one (already normalized) row. -/
def rowMatches (ci : Nat) (shortLow : List Char) (r : List String) : Bool :=
  containsSub shortLow (lowerL (r.getD ci "").data)

/-- The errors `get_student` raises as `HTTPException`s: 503 when the
cache is empty, 500 when the column is absent, 404 when no row matches. -/
inductive LookupError
  | NotReady
  | ColumnMissing
  | NotFound
deriving DecidableEq, Repr

/-- The JSON object returned on success: the injected `last_updated`
plus the matched row as a column-name/value mapping, empty strings
reported as `null`. -/
structure StudentResult where
  last_updated : Option String
  fields : List (String × Option String)
deriving DecidableEq, Repr

/-- `row.iloc[0].to_dict()` followed by the empty-string-to-`None`
rewrite. -/
def mkFields (cols : List String) (r : List String) : List (String × Option String) :=
  (cols.zip r).map (fun cv => (cv.1, if cv.2 = "" then none else some cv.2))

/-- Index of the `Scholar ID` column. -/
def colIdx (df : DataFrame) : Nat :=
  df.columns.findIdx (fun c => c = "Scholar ID")

/-- `get_student(scholar_id)` from `main.py`, returning the response (or
typed error) together with the post-call `DATA_CACHE` state. The state
matters: line 172 of the source assigns the normalized identifier column
back into the shared cached DataFrame before matching, so the published
snapshot is mutated by a lookup. -/
def get_student (scholar_id : String) (st : CacheState) :
    Except LookupError StudentResult × CacheState :=
  match st.df with
  | none => (.error .NotReady, st)
  | some df =>
    if df.columns.contains "Scholar ID" then
      let ci := colIdx df
      let rows2 := df.rows.map (normRow ci)
      let st2 : CacheState := ⟨some ⟨df.columns, rows2⟩, st.last_updated⟩
      let shortLow := lowerL (shortForm scholar_id).data
      match rows2.find? (rowMatches ci shortLow) with
      | none => (.error .NotFound, st2)
      | some r => (.ok ⟨st.last_updated, mkFields df.columns r⟩, st2)
    else (.error .ColumnMissing, st)

/-! ## Asset Proxy Cache (`image_proxy`, `compress_image`)

Bytes are modelled as `List Nat`, the clock `time.time()` as a `Nat`
second count passed in, the origin fetch and the PIL decode/re-encode as
explicit outcome arguments. -/

/-- One entry of `IMAGE_CACHE`. -/
structure CacheEntry where
  data : List Nat
  content_type : String
  timestamp : Nat
deriving DecidableEq, Repr

/-- `IMAGE_CACHE`, a dict keyed by file id; lookups see the most recent
insertion for a key. -/
abbrev ImageCache : Type := List (String × CacheEntry)

/-- Dict lookup `IMAGE_CACHE[file_id]`. -/
def lookupCache (c : ImageCache) (k : String) : Option CacheEntry :=
  match c with
  | [] => none
  | e :: rest => if e.1 = k then some e.2 else lookupCache rest k

/-- Dict assignment `IMAGE_CACHE[file_id] = entry`. -/
def insertCache (c : ImageCache) (k : String) (e : CacheEntry) : ImageCache :=
  (k, e) :: c

/-- `CACHE_TTL = 60 * 60 * 4`. -/
def CACHE_TTL : Nat := 60 * 60 * 4

/-- The origin's HTTP response (`httpx` result): status code, body
bytes, and optional `content-type` header. -/
structure HttpResp where
  status : Nat
  content : List Nat
  contentType : Option String
deriving DecidableEq, Repr

/-- `compress_image(data)`: the PIL decode/thumbnail/re-encode is an
external effect, passed as `transformed` (`some out` when the bytes
parse as an image and re-encode to `out`, `none` when PIL raises); the
`except` branch returns the original bytes unchanged. -/
def compress_image (data : List Nat) (transformed : Option (List Nat)) : List Nat :=
  match transformed with
  | some out => out
  | none => data

/-- What `/image-proxy/{file_id}` sends back: a body with media type and
`Cache-Control` header, or an `HTTPException` status/detail. The outer
`except Exception` turns every raised error (including the inner
status-code `HTTPException`) into a 500. -/
inductive ProxyResult
  | response (data : List Nat) (media_type : String) (cacheControl : String)
  | httpError (status : Nat) (detail : String)
deriving DecidableEq, Repr

/-- The fetch-and-store tail of `image_proxy`, entered on a cache miss
or an expired entry: `fetch` is the origin outcome (`none` models a
network exception). The `Nat` component counts origin fetches performed
by this call. -/
def proxyFetchPath (st : ImageCache) (file_id : String) (now : Nat)
    (fetch : Option HttpResp) (transformed : Option (List Nat)) :
    ProxyResult × ImageCache × Nat :=
  match fetch with
  | none => (.httpError 500 "fetch error", st, 1)
  | some resp =>
    if resp.status = 200 then
      let data := compress_image resp.content transformed
      let ct := resp.contentType.getD "image/jpeg"
      (.response data ct "public, max-age=14400",
       insertCache st file_id ⟨data, ct, now⟩, 1)
    else (.httpError 500 "Image fetch failed", st, 1)

/-- `image_proxy(file_id)` from `main.py`: serve from `IMAGE_CACHE` when
an entry exists and is younger than `CACHE_TTL`, otherwise fetch,
compress, store with timestamp `now`, and respond. -/
def image_proxy (st : ImageCache) (file_id : String) (now : Nat)
    (fetch : Option HttpResp) (transformed : Option (List Nat)) :
    ProxyResult × ImageCache × Nat :=
  match lookupCache st file_id with
  | some cached =>
    if now - cached.timestamp < CACHE_TTL then
      (.response cached.data cached.content_type "public, max-age=14400", st, 0)
    else proxyFetchPath st file_id now fetch transformed
  | none => proxyFetchPath st file_id now fetch transformed

/-! ## Spec-side matching policy (for refinement comparison) -/

/-- The matching policy as the spec words it (§4.2), for comparison with
the matcher embedded from the code: a record matches if its normalized
identifier equals the query's normalized identifier case-insensitively,
OR contains the query's short form as a case-insensitive substring. -/
def specMatches (cell q : String) : Bool :=
  (lowerL (normalizeCell cell).data == lowerL (normalizeCell q).data) ||
  containsSub (lowerL (shortForm q).data) (lowerL (normalizeCell cell).data)

/-! ## Concrete fixtures used to instantiate the theorems -/

/-- The spec's worked example: identifier column values
`["4523/2022", "9001"]`. -/
def exampleDf : DataFrame := ⟨["Scholar ID"], [["4523/2022"], ["9001"]]⟩

/-- A snapshot whose identifier cell contains interior and leading
spaces, exposing the in-place column normalization. -/
def mutationDf : DataFrame :=
  ⟨["Scholar ID", "Name"], [[" 45 23/2022", "Ann"], ["9001", "Bob"]]⟩

/-! ## Lemmas about the Field Normalizer -/

/-- A successful regex search never captures an empty token. -/
lemma searchTokenAfter_ne_nil (pat : List Char) :
    ∀ l tok : List Char, searchTokenAfter pat l = some tok → tok ≠ [] := by
  intro l
  induction l with
  | nil => intro tok h; exact absurd h (by simp [searchTokenAfter])
  | cons c cs ih =>
    intro tok h
    unfold searchTokenAfter at h
    split at h
    · split at h
      · exact ih tok h
      · split at h
        · simp only [Option.some.injEq] at h
          exact fun hnil => by simp [← h] at hnil
        · exact ih tok h
    · exact ih tok h

/-- The search succeeds exactly when `hasTokenAfter` says so. -/
lemma searchTokenAfter_isSome (pat : List Char) :
    ∀ l : List Char, (searchTokenAfter pat l).isSome = hasTokenAfter pat l := by
  intro l
  induction l with
  | nil => rfl
  | cons c cs ih =>
    unfold searchTokenAfter hasTokenAfter
    split
    · split
      · simpa using ih
      · split
        · simp [*]
        · simp_all
    · simp_all

/-- A failed search means `hasTokenAfter` is false, and conversely. -/
lemma searchTokenAfter_eq_none (pat l : List Char) :
    searchTokenAfter pat l = none ↔ hasTokenAfter pat l = false := by
  rw [← searchTokenAfter_isSome]
  cases searchTokenAfter pat l <;> simp

/-- Extraction never yields the empty token, so the truthiness guard in
`build_image_url` never fires on a successful extraction. -/
lemma extract_file_id_ne_nil (u : Option String) (fid : String)
    (h : extract_file_id u = some fid) : fid.data ≠ [] := by
  match u with
  | none => exact absurd h (by simp [extract_file_id])
  | some s =>
    simp only [extract_file_id] at h
    by_cases he : s.data.isEmpty
    · rw [if_pos he] at h; exact absurd h (by simp)
    · rw [if_neg he] at h
      cases h1 : searchTokenAfter ['/', 'd', '/'] s.data with
      | some tok =>
        rw [h1] at h
        simp only [Option.some.injEq] at h
        subst h
        exact searchTokenAfter_ne_nil _ _ _ h1
      | none =>
        rw [h1] at h
        cases h2 : searchTokenAfter ['i', 'd', '='] s.data with
        | some tok =>
          rw [h2] at h
          simp only [Option.some.injEq] at h
          subst h
          exact searchTokenAfter_ne_nil _ _ _ h2
        | none => rw [h2] at h; exact absurd h (by simp)

/-! ## C8: Asset Reference derivation -/

/-- C8: Asset Reference derivation is a pure function of the URL string:
a URL with a `/d/<token>` segment yields that token
(`.../file/d/ABC123/view` yields `ABC123`); otherwise a URL with an
`id=<token>` occurrence yields that token (`...?id=XYZ789` yields
`XYZ789`); a URL matching neither pattern, a non-string input (`none`)
or an empty string yields no token (and a yielded token is never
empty). -/
theorem C8_reference_extraction :
    extract_file_id none = none
    ∧ extract_file_id (some "") = none
    ∧ extract_file_id (some "https://drive.google.com/file/d/ABC123/view") = some "ABC123"
    ∧ extract_file_id (some "https://drive.google.com/uc?export=view&id=XYZ789") = some "XYZ789"
    ∧ (∀ s : String, hasTokenAfter ['/', 'd', '/'] s.data = false →
        hasTokenAfter ['i', 'd', '='] s.data = false →
        extract_file_id (some s) = none)
    ∧ (∀ s : String, hasTokenAfter ['/', 'd', '/'] s.data = true →
        ∃ tok : String, extract_file_id (some s) = some tok ∧ tok.data ≠ []) := by
  refine ⟨rfl, rfl, by decide, by decide, ?_, ?_⟩
  · intro s h1 h2
    simp only [extract_file_id]
    rw [(searchTokenAfter_eq_none _ _).mpr h1, (searchTokenAfter_eq_none _ _).mpr h2]
    split <;> rfl
  · intro s h1
    have hsome : (searchTokenAfter ['/', 'd', '/'] s.data).isSome = true := by
      rw [searchTokenAfter_isSome]; exact h1
    obtain ⟨tok, htok⟩ := Option.isSome_iff_exists.mp hsome
    have hne : s.data.isEmpty = false := by
      cases hd : s.data with
      | nil => rw [hd] at htok; exact absurd htok (by simp [searchTokenAfter])
      | cons a t => rfl
    refine ⟨⟨tok⟩, ?_, searchTokenAfter_ne_nil _ _ _ htok⟩
    simp only [extract_file_id, hne, Bool.false_eq_true, if_false, htok]

/-- C8 witness: the two hypothesis-bearing conjuncts of
`C8_reference_extraction` at concrete URLs. -/
theorem C8_witness :
    (hasTokenAfter ['/', 'd', '/'] "https://example.com/photo.png".data = false
      ∧ hasTokenAfter ['i', 'd', '='] "https://example.com/photo.png".data = false
      ∧ extract_file_id (some "https://example.com/photo.png") = none)
    ∧ (hasTokenAfter ['/', 'd', '/'] "https://x/d/T0K/view".data = true
      ∧ ∃ tok : String, extract_file_id (some "https://x/d/T0K/view") = some tok
          ∧ tok.data ≠ []) :=
  ⟨⟨by decide, by decide,
    C8_reference_extraction.2.2.2.2.1 "https://example.com/photo.png" (by decide) (by decide)⟩,
   ⟨by decide, C8_reference_extraction.2.2.2.2.2 "https://x/d/T0K/view" (by decide)⟩⟩

/-! ## C2: Reference Resolver behaviour on failed derivation -/

/-- C2 counterexample: the Resolver does NOT leave a field unchanged
when derivation fails — `load_data` applies `build_image_url` cell-wise,
and `build_image_url` returns `None` when no file id can be extracted,
so the original link is replaced by `None`. -/
theorem C2_counterexample :
    resolveColumn ["https://example.com/photo.png"]
        ≠ [some "https://example.com/photo.png"]
    ∧ resolveColumn ["https://example.com/photo.png"] = [none] := by
  exact ⟨by decide, by decide⟩

/-- C2 amended: for every asset-bearing cell, when Asset Reference
derivation fails the Resolver replaces the cell's value with `None`
(absent), and when it succeeds the value is replaced with the proxy URL
`<proxy-base>/<asset-reference>`; the original value is never kept. -/
theorem C2_resolver_amended (v : String) :
    (extract_file_id (some v) = none → build_image_url (some v) = none)
    ∧ (∀ fid : String, extract_file_id (some v) = some fid →
        build_image_url (some v) = some (PROXY_BASE ++ fid)) := by
  constructor
  · intro h
    simp only [build_image_url, h]
  · intro fid h
    have hne : fid.data.isEmpty = false := by
      cases hd : fid.data with
      | nil => exact absurd hd (extract_file_id_ne_nil _ _ h)
      | cons a t => rfl
    simp only [build_image_url, h, hne, Bool.false_eq_true, if_false]

/-- C2 witness: `C2_resolver_amended` at a URL with no extractable
reference and at one with reference `ABC`. -/
theorem C2_witness :
    (extract_file_id (some "no-reference-here") = none
      ∧ build_image_url (some "no-reference-here") = none)
    ∧ (extract_file_id (some "https://host/d/ABC?x=1") = some "ABC"
      ∧ build_image_url (some "https://host/d/ABC?x=1") = some (PROXY_BASE ++ "ABC")) :=
  ⟨⟨by decide, (C2_resolver_amended "no-reference-here").1 (by decide)⟩,
   ⟨by decide, (C2_resolver_amended "https://host/d/ABC?x=1").2 "ABC" (by decide)⟩⟩

/-! ## C4: refresh failures never clobber the published snapshot -/

/-- C4: a failing refresh tick leaves the published snapshot and its
timestamp unchanged and logs the failure; the published state changes
only through a fully successful refresh, which installs the new
snapshot and timestamp; the refresh loop handles every tick (one log
line per tick, so no failure terminates it early); and a failing
initial load leaves the cache empty while the process goes on. -/
theorem C4_refresh_failure_isolation :
    (∀ (st : CacheState) (e : String),
        refreshTick st (.error e) = (st, "Error refreshing cache: " ++ e))
    ∧ (∀ (st : CacheState) (r : Except String (DataFrame × String)),
        (refreshTick st r).1 ≠ st →
        ∃ df ts, r = .ok (df, ts) ∧ (refreshTick st r).1 = ⟨some df, some ts⟩)
    ∧ (∀ (st : CacheState) (ticks : List (Except String (DataFrame × String))),
        (refresh_data_cache st ticks).2.length = ticks.length)
    ∧ (∀ e : String, on_startup (.error e) = ⟨none, none⟩) := by
  refine ⟨fun st e => rfl, ?_, ?_, fun e => rfl⟩
  · intro st r h
    match r with
    | .error e => exact absurd rfl h
    | .ok (df, ts) => exact ⟨df, ts, rfl, rfl⟩
  · intro st ticks
    induction ticks generalizing st with
    | nil => rfl
    | cons r rs ih => simpa [refresh_data_cache] using ih (refreshTick st r).1

/-- C4 witness: the conjuncts of `C4_refresh_failure_isolation` at a
concrete failing tick, a concrete successful tick, and a concrete
three-tick run with failures around a success. -/
theorem C4_witness :
    (refreshTick ⟨some exampleDf, some "t0"⟩ (.error "boom")
        = (⟨some exampleDf, some "t0"⟩, "Error refreshing cache: boom"))
    ∧ ((refreshTick ⟨none, none⟩ (.ok (exampleDf, "t1"))).1 ≠ (⟨none, none⟩ : CacheState))
    ∧ (∃ df ts,
        (Except.ok (exampleDf, "t1") : Except String (DataFrame × String)) = .ok (df, ts)
        ∧ (refreshTick ⟨none, none⟩ (.ok (exampleDf, "t1"))).1 = ⟨some df, some ts⟩)
    ∧ (refresh_data_cache ⟨none, none⟩
        [.error "a", .ok (exampleDf, "t1"), .error "b"]).2.length = 3 :=
  ⟨C4_refresh_failure_isolation.1 _ "boom",
   by decide,
   C4_refresh_failure_isolation.2.1 _ _ (by decide),
   (C4_refresh_failure_isolation.2.2.1 _ _).trans (by decide)⟩

/-! ## C7: NotReady and ColumnMissing -/

/-- C7: while no snapshot is published every lookup fails with
`NotReady`, and when the snapshot lacks the `Scholar ID` column every
lookup fails with `ColumnMissing`; both are returned as typed errors of
the total lookup function (no crash) with the cache state untouched, so
the background refresh loop is unaffected. -/
theorem C7_not_ready_and_column_missing :
    (∀ (q : String) (ts : Option String),
        get_student q ⟨none, ts⟩ = (.error .NotReady, ⟨none, ts⟩))
    ∧ (∀ (q : String) (df : DataFrame) (ts : Option String),
        df.columns.contains "Scholar ID" = false →
        get_student q ⟨some df, ts⟩ = (.error .ColumnMissing, ⟨some df, ts⟩)) := by
  refine ⟨fun q ts => rfl, ?_⟩
  intro q df ts h
  simp only [get_student, h, Bool.false_eq_true, if_false]

/-- C7 witness: `C7_not_ready_and_column_missing` at a concrete query
against the empty cache and against a snapshot without the identifier
column. -/
theorem C7_witness :
    (get_student "4523" ⟨none, none⟩ = (.error .NotReady, ⟨none, none⟩))
    ∧ ((DataFrame.mk ["Name"] [["Ann"]]).columns.contains "Scholar ID" = false)
    ∧ (get_student "4523" ⟨some ⟨["Name"], [["Ann"]]⟩, some "t"⟩
        = (.error .ColumnMissing, ⟨some ⟨["Name"], [["Ann"]]⟩, some "t"⟩)) :=
  ⟨C7_not_ready_and_column_missing.1 "4523" none,
   by decide,
   C7_not_ready_and_column_missing.2 "4523" ⟨["Name"], [["Ann"]]⟩ (some "t") (by decide)⟩

/-! ## Lemmas about the Asset Proxy Cache -/

/-- Every pass through the fetch path performs exactly one origin
fetch, whatever the outcome. -/
lemma proxyFetchPath_fetches (st : ImageCache) (fid : String) (now : Nat)
    (fetch : Option HttpResp) (tr : Option (List Nat)) :
    (proxyFetchPath st fid now fetch tr).2.2 = 1 := by
  match fetch with
  | none => rfl
  | some resp =>
    simp only [proxyFetchPath]
    split <;> rfl

/-- The fetch path on a 200 response: compress, store under the
reference with timestamp `now`, and respond with the stored payload. -/
lemma proxyFetchPath_success (st : ImageCache) (fid : String) (now : Nat)
    (resp : HttpResp) (tr : Option (List Nat)) (h200 : resp.status = 200) :
    proxyFetchPath st fid now (some resp) tr
      = (.response (compress_image resp.content tr)
          (resp.contentType.getD "image/jpeg") "public, max-age=14400",
         insertCache st fid
           ⟨compress_image resp.content tr, resp.contentType.getD "image/jpeg", now⟩, 1) := by
  simp only [proxyFetchPath, h200, if_true]

/-- A lookup right after an insertion finds the inserted entry. -/
lemma lookupCache_insertCache (st : ImageCache) (fid : String) (e : CacheEntry) :
    lookupCache (insertCache st fid e) fid = some e := by
  simp [lookupCache, insertCache]

/-! ## C5: TTL behaviour of the asset cache -/

/-- C5: a `get` while a cache entry younger than the TTL exists returns
the stored payload and content type with no origin fetch and no state
change; a `get` with no entry, or with an entry whose age is at or
above the TTL, performs exactly one origin fetch; and on a successful
fetch the new payload is stored under the reference with the fresh
timestamp `now` before being returned. -/
theorem C5_asset_cache_ttl :
    (∀ (st : ImageCache) (fid : String) (now : Nat) (fetch : Option HttpResp)
        (tr : Option (List Nat)) (e : CacheEntry),
        lookupCache st fid = some e → now - e.timestamp < CACHE_TTL →
        image_proxy st fid now fetch tr
          = (.response e.data e.content_type "public, max-age=14400", st, 0))
    ∧ (∀ (st : ImageCache) (fid : String) (now : Nat) (fetch : Option HttpResp)
        (tr : Option (List Nat)),
        lookupCache st fid = none →
        (image_proxy st fid now fetch tr).2.2 = 1)
    ∧ (∀ (st : ImageCache) (fid : String) (now : Nat) (fetch : Option HttpResp)
        (tr : Option (List Nat)) (e : CacheEntry),
        lookupCache st fid = some e → CACHE_TTL ≤ now - e.timestamp →
        (image_proxy st fid now fetch tr).2.2 = 1)
    ∧ (∀ (st : ImageCache) (fid : String) (now : Nat) (resp : HttpResp)
        (tr : Option (List Nat)),
        (lookupCache st fid = none
          ∨ ∃ e, lookupCache st fid = some e ∧ CACHE_TTL ≤ now - e.timestamp) →
        resp.status = 200 →
        image_proxy st fid now (some resp) tr
          = (.response (compress_image resp.content tr)
              (resp.contentType.getD "image/jpeg") "public, max-age=14400",
             insertCache st fid
               ⟨compress_image resp.content tr, resp.contentType.getD "image/jpeg", now⟩, 1)
          ∧ lookupCache (image_proxy st fid now (some resp) tr).2.1 fid
              = some ⟨compress_image resp.content tr,
                      resp.contentType.getD "image/jpeg", now⟩) := by
  refine ⟨?_, ?_, ?_, ?_⟩
  · intro st fid now fetch tr e he hage
    simp only [image_proxy, he, hage, if_true]
  · intro st fid now fetch tr he
    simp only [image_proxy, he]
    exact proxyFetchPath_fetches st fid now fetch tr
  · intro st fid now fetch tr e he hage
    simp only [image_proxy, he, Nat.not_lt.mpr hage, if_false]
    exact proxyFetchPath_fetches st fid now fetch tr
  · intro st fid now resp tr hmiss h200
    have hfp : image_proxy st fid now (some resp) tr
        = proxyFetchPath st fid now (some resp) tr := by
      rcases hmiss with he | ⟨e, he, hage⟩
      · simp only [image_proxy, he]
      · simp only [image_proxy, he, Nat.not_lt.mpr hage, if_false]
    rw [hfp, proxyFetchPath_success st fid now resp tr h200]
    exact ⟨rfl, lookupCache_insertCache st fid _⟩

/-- C5 witness: `C5_asset_cache_ttl` at a concrete cache: a hit below
the TTL, a miss, an entry exactly at the TTL, and a successful refetch
storing the new payload. -/
theorem C5_witness :
    (image_proxy [("A", ⟨[1, 2], "image/png", 100⟩)] "A" 200
        (some ⟨200, [5], some "image/gif"⟩) none
      = (.response [1, 2] "image/png" "public, max-age=14400",
         [("A", ⟨[1, 2], "image/png", 100⟩)], 0))
    ∧ ((image_proxy [] "B" 200 none none).2.2 = 1)
    ∧ ((image_proxy [("A", ⟨[1, 2], "image/png", 100⟩)] "A" 14500
        (some ⟨200, [5], some "image/gif"⟩) none).2.2 = 1)
    ∧ (image_proxy [("A", ⟨[1, 2], "image/png", 100⟩)] "A" 14500
        (some ⟨200, [5], some "image/gif"⟩) none
      = (.response [5] "image/gif" "public, max-age=14400",
         [("A", ⟨[5], "image/gif", 14500⟩), ("A", ⟨[1, 2], "image/png", 100⟩)], 1)) :=
  ⟨C5_asset_cache_ttl.1 _ "A" 200 _ none ⟨[1, 2], "image/png", 100⟩ (by decide) (by decide),
   C5_asset_cache_ttl.2.1 [] "B" 200 none none (by decide),
   C5_asset_cache_ttl.2.2.1 _ "A" 14500 _ none ⟨[1, 2], "image/png", 100⟩
     (by decide) (by decide),
   ((C5_asset_cache_ttl.2.2.2 _ "A" 14500 ⟨200, [5], some "image/gif"⟩ none
     (Or.inr ⟨⟨[1, 2], "image/png", 100⟩, by decide, by decide⟩) (by decide)).1).trans
     (by decide)⟩

/-! ## C6: transform failure falls back to the original bytes -/

/-- C6: when the image transform fails, `compress_image` returns the
fetched bytes unchanged, and `image_proxy` on a successful fetch still
responds (never an error), caching exactly the original bytes under the
reference. -/
theorem C6_transform_fallback :
    (∀ data : List Nat, compress_image data none = data)
    ∧ (∀ (st : ImageCache) (fid : String) (now : Nat) (resp : HttpResp),
        lookupCache st fid = none → resp.status = 200 →
        image_proxy st fid now (some resp) none
          = (.response resp.content (resp.contentType.getD "image/jpeg")
              "public, max-age=14400",
             insertCache st fid
               ⟨resp.content, resp.contentType.getD "image/jpeg", now⟩, 1)) := by
  refine ⟨fun data => rfl, ?_⟩
  intro st fid now resp he h200
  simp only [image_proxy, he]
  exact proxyFetchPath_success st fid now resp none h200

/-- C6 witness: non-image bytes `[0, 1, 2]` (transform fails) are still
served and cached unchanged. -/
theorem C6_witness :
    compress_image [0, 1, 2] none = [0, 1, 2]
    ∧ image_proxy [] "A" 50 (some ⟨200, [0, 1, 2], none⟩) none
        = (.response [0, 1, 2] "image/jpeg" "public, max-age=14400",
           [("A", ⟨[0, 1, 2], "image/jpeg", 50⟩)], 1) :=
  ⟨C6_transform_fallback.1 [0, 1, 2],
   C6_transform_fallback.2 [] "A" 50 ⟨200, [0, 1, 2], none⟩ rfl rfl⟩

/-! ## C10: served content type is the origin header -/

/-- C10: the content type stored and served is always the origin
response's `content-type` header (defaulting to `image/jpeg` when the
origin sends none), independent of the transform outcome `tr` — even
when the transform re-encoded the payload to JPEG, so the served type
can disagree with the actual bytes. -/
theorem C10_content_type_from_origin
    (st : ImageCache) (fid : String) (now : Nat) (resp : HttpResp)
    (tr : Option (List Nat))
    (he : lookupCache st fid = none) (h200 : resp.status = 200) :
    (image_proxy st fid now (some resp) tr).1
        = .response (compress_image resp.content tr)
            (resp.contentType.getD "image/jpeg") "public, max-age=14400"
    ∧ lookupCache (image_proxy st fid now (some resp) tr).2.1 fid
        = some ⟨compress_image resp.content tr,
                resp.contentType.getD "image/jpeg", now⟩ := by
  have hfp : image_proxy st fid now (some resp) tr
      = proxyFetchPath st fid now (some resp) tr := by
    simp only [image_proxy, he]
  rw [hfp, proxyFetchPath_success st fid now resp tr h200]
  exact ⟨rfl, lookupCache_insertCache st fid _⟩

/-- C10 witness: the origin says `image/png` while the transform
re-encoded the payload to the JPEG bytes `[9, 9]`: the served and
stored content type is still `image/png`; and with no origin header the
default `image/jpeg` is used. -/
theorem C10_witness :
    ((image_proxy [] "A" 50 (some ⟨200, [1, 2, 3], some "image/png"⟩) (some [9, 9])).1
        = .response [9, 9] "image/png" "public, max-age=14400")
    ∧ ((image_proxy [] "B" 50 (some ⟨200, [1, 2, 3], none⟩) (some [9, 9])).1
        = .response [9, 9] "image/jpeg" "public, max-age=14400") :=
  ⟨(C10_content_type_from_origin [] "A" 50 ⟨200, [1, 2, 3], some "image/png"⟩
      (some [9, 9]) rfl rfl).1,
   (C10_content_type_from_origin [] "B" 50 ⟨200, [1, 2, 3], none⟩
      (some [9, 9]) rfl rfl).1⟩

/-! ## Lemmas about identifier normalization and matching -/

lemma startsWith_append (p r : List Char) : startsWith p (p ++ r) = true := by
  induction p with
  | nil => rfl
  | cons c cs ih => simpa [startsWith] using ih

lemma containsSub_of_startsWith (n h : List Char) (hs : startsWith n h = true) :
    containsSub n h = true := by
  cases h with
  | nil => exact hs
  | cons c cs => simp [containsSub, hs]

lemma removeSpaces_append (a b : List Char) :
    removeSpaces (a ++ b) = removeSpaces a ++ removeSpaces b :=
  List.filter_append a b

lemma lowerL_append (a b : List Char) :
    lowerL (a ++ b) = lowerL a ++ lowerL b :=
  List.map_append _ a b

/-- The query's short form is a prefix of its normalized form: removing
spaces and lowercasing commute with splitting at the first `/`. -/
lemma norm_eq_short_append (q : String) :
    lowerL (normalizeCell q).data
      = lowerL (shortForm q).data
        ++ lowerL (removeSpaces ((pyStrip q.data).dropWhile (fun c => !(c = '/')))) := by
  show lowerL (removeSpaces (pyStrip q.data))
      = lowerL (removeSpaces ((pyStrip q.data).takeWhile (fun c => !(c = '/'))))
        ++ lowerL (removeSpaces ((pyStrip q.data).dropWhile (fun c => !(c = '/'))))
  rw [← lowerL_append, ← removeSpaces_append, List.takeWhile_append_dropWhile]

/-- The spec's equals-or-contains policy collapses to the code's single
substring test: a case-insensitive exact match already contains the
short form, because the short form is a prefix of the normalized
query. -/
lemma specMatches_eq_contains (cell q : String) :
    specMatches cell q
      = containsSub (lowerL (shortForm q).data) (lowerL (normalizeCell cell).data) := by
  unfold specMatches
  cases heq : (lowerL (normalizeCell cell).data == lowerL (normalizeCell q).data) with
  | false => simp
  | true =>
    have he : lowerL (normalizeCell cell).data = lowerL (normalizeCell q).data :=
      eq_of_beq heq
    rw [Bool.true_or, he, norm_eq_short_append q]
    exact (containsSub_of_startsWith _ _ (startsWith_append _ _)).symm

/-- The normalized row keeps `normalizeCell` of the original identifier
cell at the identifier index (also when the row is ragged and the index
is out of range, where both sides are the empty string). -/
lemma getD_normRow (ci : Nat) (r : List String) :
    (normRow ci r).getD ci "" = normalizeCell (r.getD ci "") := by
  unfold normRow
  rcases Nat.lt_or_ge ci r.length with h | h
  · rw [List.getD_eq_getElem?_getD, List.getElem?_set_eq_of_lt _ h]
    rfl
  · rw [List.set_eq_of_length_le h, List.getD_eq_default _ _ h]
    decide

/-- The code's row test on the normalized row agrees with the spec's
policy on the raw row. -/
lemma rowMatches_normRow (ci : Nat) (q : String) (r : List String) :
    rowMatches ci (lowerL (shortForm q).data) (normRow ci r)
      = specMatches (r.getD ci "") q := by
  rw [specMatches_eq_contains]
  unfold rowMatches
  rw [getD_normRow]

/-! ## Normalization is idempotent -/

lemma head_false_of_dropWhile_eq_self (p : Char → Bool) (c : Char) (t : List Char)
    (h : (c :: t).dropWhile p = c :: t) : p c = false := by
  cases hpc : p c with
  | false => rfl
  | true =>
    exfalso
    rw [List.dropWhile_cons, if_pos hpc] at h
    have hlen := congrArg List.length h
    have hle : (t.dropWhile p).length ≤ t.length :=
      (List.dropWhile_suffix p).sublist.length_le
    simp only [List.length_cons] at hlen
    omega

lemma dropWhile_eq_self_of_head (p : Char → Bool) (c : Char) (t : List Char)
    (h : p c = false) : (c :: t).dropWhile p = c :: t := by
  rw [List.dropWhile_cons, h]
  simp

/-- Removing spaces cannot create a leading whitespace character. -/
lemma noLead_removeSpaces (l : List Char) (h : l.dropWhile isPySpace = l) :
    (removeSpaces l).dropWhile isPySpace = removeSpaces l := by
  cases l with
  | nil => rfl
  | cons c t =>
    have hc : isPySpace c = false := head_false_of_dropWhile_eq_self _ _ _ h
    have hcs : ¬ c = ' ' := by
      intro hceq; rw [hceq] at hc; exact absurd hc (by decide)
    have hrs : removeSpaces (c :: t) = c :: removeSpaces t := by
      simp [removeSpaces, hcs]
    rw [hrs]
    exact dropWhile_eq_self_of_head _ _ _ hc

/-- A prefix of a list with no leading whitespace has no leading
whitespace. -/
lemma noLead_of_prefix (p : Char → Bool) (l m : List Char) (hpre : m <+: l)
    (h : l.dropWhile p = l) : m.dropWhile p = m := by
  cases m with
  | nil => rfl
  | cons c t =>
    obtain ⟨r, hr⟩ := hpre
    subst hr
    have hc : p c = false :=
      head_false_of_dropWhile_eq_self p c (t ++ r) (by simpa using h)
    exact dropWhile_eq_self_of_head _ _ _ hc

lemma pyStrip_noLead (l : List Char) :
    (pyStrip l).dropWhile isPySpace = pyStrip l := by
  have hpre : pyStrip l <+: l.dropWhile isPySpace := by
    have hs : (l.dropWhile isPySpace).reverse.dropWhile isPySpace
        <:+ (l.dropWhile isPySpace).reverse := List.dropWhile_suffix isPySpace
    have hp := List.reverse_prefix.mpr hs
    rwa [List.reverse_reverse] at hp
  exact noLead_of_prefix isPySpace (l.dropWhile isPySpace) (pyStrip l) hpre
    (List.dropWhile_idempotent _ _)

lemma pyStrip_noTrail (l : List Char) :
    (pyStrip l).reverse.dropWhile isPySpace = (pyStrip l).reverse := by
  unfold pyStrip
  rw [List.reverse_reverse]
  exact List.dropWhile_idempotent _ _

lemma noTrail_removeSpaces (l : List Char)
    (h : l.reverse.dropWhile isPySpace = l.reverse) :
    (removeSpaces l).reverse.dropWhile isPySpace = (removeSpaces l).reverse := by
  have hrev : (removeSpaces l).reverse = removeSpaces l.reverse := by
    unfold removeSpaces
    exact (List.filter_reverse _ _).symm
  rw [hrev]
  exact noLead_removeSpaces _ h

lemma pyStrip_eq_self (l : List Char) (h1 : l.dropWhile isPySpace = l)
    (h2 : l.reverse.dropWhile isPySpace = l.reverse) : pyStrip l = l := by
  unfold pyStrip
  rw [h1, h2, List.reverse_reverse]

lemma removeSpaces_idem (l : List Char) :
    removeSpaces (removeSpaces l) = removeSpaces l := by
  unfold removeSpaces
  rw [List.filter_filter]
  simp only [Bool.and_self]

/-- `strip` then `replace(" ", "")` is idempotent: the result has no
leading or trailing whitespace left for a second strip, and no spaces
left for a second replace. -/
lemma normalizeCell_idem (s : String) :
    normalizeCell (normalizeCell s) = normalizeCell s := by
  show (⟨removeSpaces (pyStrip (removeSpaces (pyStrip s.data)))⟩ : String)
      = ⟨removeSpaces (pyStrip s.data)⟩
  rw [pyStrip_eq_self _ (noLead_removeSpaces _ (pyStrip_noLead s.data))
        (noTrail_removeSpaces _ (pyStrip_noTrail s.data)),
      removeSpaces_idem]

lemma normRow_idem (ci : Nat) (r : List String) :
    normRow ci (normRow ci r) = normRow ci r := by
  have h1 : normRow ci (normRow ci r)
      = (normRow ci r).set ci (normalizeCell ((normRow ci r).getD ci "")) := rfl
  rw [h1, getD_normRow, normalizeCell_idem]
  unfold normRow
  rw [List.set_set]

/-! ## C1: the record lookup implements the spec's matching policy -/

/-- C1: against a published snapshot with the identifier column, the
lookup succeeds exactly when some row satisfies the spec's policy (its
normalized identifier equals the query's normalized identifier
case-insensitively, or contains the query's short form as a
case-insensitive substring), and the returned record is built from the
first such row in snapshot order; otherwise it fails with `NotFound`. -/
theorem C1_matching_policy (df : DataFrame) (ts : Option String) (q : String)
    (hcol : df.columns.contains "Scholar ID" = true) :
    (get_student q ⟨some df, ts⟩).1
      = match df.rows.find? (fun r => specMatches (r.getD (colIdx df) "") q) with
        | some r => .ok ⟨ts, mkFields df.columns (normRow (colIdx df) r)⟩
        | none => .error .NotFound := by
  have hfind : (df.rows.map (normRow (colIdx df))).find?
        (rowMatches (colIdx df) (lowerL (shortForm q).data))
      = Option.map (normRow (colIdx df))
          (df.rows.find? (fun r => specMatches (r.getD (colIdx df) "") q)) := by
    rw [List.find?_map]
    have hp : (rowMatches (colIdx df) (lowerL (shortForm q).data) ∘ normRow (colIdx df))
        = (fun r => specMatches (r.getD (colIdx df) "") q) := by
      funext r
      exact rowMatches_normRow (colIdx df) q r
    rw [hp]
  simp only [get_student, hcol, if_true]
  rw [hfind]
  cases df.rows.find? (fun r => specMatches (r.getD (colIdx df) "") q) with
  | none => rfl
  | some r => rfl

/-- C1 witness: the spec's worked example
(identifier column `["4523/2022", "9001"]`): queries `4523` and
`4523/2022` both return the first row, query `9999` fails with
`NotFound`. -/
theorem C1_witness :
    (exampleDf.columns.contains "Scholar ID" = true)
    ∧ (get_student "4523" ⟨some exampleDf, some "t"⟩).1
        = .ok ⟨some "t", [("Scholar ID", some "4523/2022")]⟩
    ∧ (get_student "4523/2022" ⟨some exampleDf, some "t"⟩).1
        = .ok ⟨some "t", [("Scholar ID", some "4523/2022")]⟩
    ∧ (get_student "9999" ⟨some exampleDf, some "t"⟩).1 = .error .NotFound :=
  ⟨by decide,
   (C1_matching_policy exampleDf (some "t") "4523" (by decide)).trans (by rfl),
   (C1_matching_policy exampleDf (some "t") "4523/2022" (by decide)).trans (by rfl),
   (C1_matching_policy exampleDf (some "t") "9999" (by decide)).trans (by rfl)⟩

/-! ## C3: the lookup mutates the shared snapshot -/

/-- C3 (violated by the code): `get_student` assigns the normalized
identifier column back into the shared cached DataFrame
(`df["Scholar ID"] = df["Scholar ID"]...` on the object held in
`DATA_CACHE`), so a snapshot whose identifier cells contain spaces is
changed by a lookup: the cells are not identical before and after, the
normalized forms are written into the shared snapshot, not a local
structure. -/
theorem C3_snapshot_mutated :
    (get_student "9001" ⟨some mutationDf, some "t"⟩).2
        ≠ ⟨some mutationDf, some "t"⟩
    ∧ (get_student "9001" ⟨some mutationDf, some "t"⟩).2
        = ⟨some ⟨["Scholar ID", "Name"],
            [["4523/2022", "Ann"], ["9001", "Bob"]]⟩, some "t"⟩ := by
  exact ⟨by decide, by decide⟩

/-! ## C9: the lookup is idempotent -/

/-- C9: two successive lookups of the same raw identifier with no
refresh in between (the second running on the cache state the first
left behind) return identical results — same record, same field values,
same `last_updated`, or the same error; the in-place column
normalization is idempotent, so the first call's mutation does not
change the second call's answer. -/
theorem C9_lookup_idempotent (st : CacheState) (q : String) :
    (get_student q (get_student q st).2).1 = (get_student q st).1 := by
  match st with
  | ⟨none, ts⟩ => rfl
  | ⟨some df, ts⟩ =>
    cases hcol : df.columns.contains "Scholar ID" with
    | false =>
      simp only [get_student, hcol, Bool.false_eq_true, if_false]
    | true =>
      have hrows : (df.rows.map (normRow (colIdx df))).map (normRow (colIdx df))
          = df.rows.map (normRow (colIdx df)) := by
        rw [List.map_map]
        congr 1
        funext r
        exact normRow_idem (colIdx df) r
      simp only [get_student, hcol, if_true]
      cases hfind : (df.rows.map (normRow (colIdx df))).find?
          (rowMatches (colIdx df) (lowerL (shortForm q).data)) with
      | none =>
        simp only [colIdx] at hrows hfind ⊢
        simp only [hcol, if_true, hrows, hfind]
      | some r =>
        simp only [colIdx] at hrows hfind ⊢
        simp only [hcol, if_true, hrows, hfind]

end StudentImageFinder
